import Mathlib

/-!
# The configuration header `config_example.h`

The header is a list of namespace-scope declarations
`<type> <name> = <initialiser>;`.  The embedding keeps each declaration as
data (declared type with its `const` qualifiers, name, initialiser
expression) and gives the initialisers the meaning C++ gives them: unsuffixed
decimal literals have type `int`, `UL` literals have type `unsigned long`,
`*` associates to the left and applies the usual arithmetic conversions,
signed overflow has no value, unsigned arithmetic is modulo `2^32`.  Unary `-`
is included so that a negative setting can be written.

The width of `int` is a parameter (`32` on the ESP32 of the M5StickC, `16` on
8-bit AVR boards); `unsigned long` is 32 bits wide on both.
-/

namespace ConfigH

/-! ## Declared types -/

/-- The base types that occur in the header. -/
inductive CBase
  | char
  | int
  | unsignedLong
  | bool
  deriving DecidableEq, Repr

/-- A declared type.  `obj c b` is the base type `b`, const-qualified iff `c`;
`ptr c t` is a pointer to `t`, the pointer itself const-qualified iff `c`.
So `const int` is `obj true int`, `const char *` is `ptr false (obj true char)`
and `const char *const` would be `ptr true (obj true char)`. -/
inductive CType
  | obj (isConst : Bool) (base : CBase)
  | ptr (isConst : Bool) (pointee : CType)
  deriving DecidableEq, Repr

/-- Whether the declared object itself is const-qualified (the top-level
qualifier).  An object can be the left operand of an assignment exactly when
this is `false`. -/
def CType.isConstObject : CType → Bool
  | .obj c _ => c
  | .ptr c _ => c

/-- Whether the type is a pointer whose pointee is const-qualified. -/
def CType.pointsToConst : CType → Bool
  | .obj _ _ => false
  | .ptr _ t => t.isConstObject

/-- Whether the type is a pointer type. -/
def CType.isPointer : CType → Bool
  | .obj _ _ => false
  | .ptr _ _ => true

/-! ## Initialiser expressions -/

/-- Initialiser expressions: the literals and the binary `*` of the header,
identifiers (an initialiser may name an earlier constant) and the unary `-`
(a decimal literal has no sign; a negative setting is written `-n`). -/
inductive Expr
  | intLit (n : Nat)
  | ulLit (n : Nat)
  | boolLit (b : Bool)
  | strLit (s : String)
  | ident (name : String)
  | mul (a b : Expr)
  | neg (a : Expr)
  deriving DecidableEq, Repr

/-- One declaration `ty name = init;`. -/
structure Decl where
  ty : CType
  name : String
  init : Expr
  deriving DecidableEq, Repr

/-- Values of the constants. -/
inductive Value
  | int (v : Int)
  | ulong (v : Nat)
  | bool (b : Bool)
  | str (s : String)
  deriving DecidableEq, Repr

/-- The constants defined so far, in declaration order. -/
abbrev Env := List (String × Value)

/-! ## The header -/

def constCharPtr : CType := .ptr false (.obj true .char)
def constInt : CType := .obj true .int
def constULong : CType := .obj true .unsignedLong
def constBool : CType := .obj true .bool

/-- The declarations of `config_example.h`, in source order. -/
def CONFIG_H : List Decl :=
  [ ⟨constCharPtr, "ssid", .strLit "YOUR_WIFI_SSID"⟩,
    ⟨constCharPtr, "password", .strLit "YOUR_WIFI_PASSWORD"⟩,
    ⟨constCharPtr, "mqtt_server", .strLit "192.168.1.100"⟩,
    ⟨constInt, "mqtt_port", .intLit 1883⟩,
    ⟨constCharPtr, "mqtt_client_id", .strLit "M5StickC_CO2_Monitor"⟩,
    ⟨constCharPtr, "mqtt_topic", .strLit "m5stickc_co2/co2_data"⟩,
    ⟨constULong, "AUTO_RESTART_INTERVAL",
      .mul (.mul (.mul (.intLit 24) (.intLit 60)) (.intLit 60)) (.ulLit 1000)⟩,
    ⟨constBool, "ENABLE_AUTO_RESTART", .boolLit true⟩,
    ⟨constULong, "WATCHDOG_TIMEOUT", .mul (.intLit 30) (.intLit 1000)⟩,
    ⟨constBool, "ENABLE_WATCHDOG", .boolLit true⟩,
    ⟨constInt, "MAX_WIFI_RETRY", .intLit 3⟩,
    ⟨constInt, "MAX_MQTT_RETRY", .intLit 5⟩,
    ⟨constULong, "WIFI_RETRY_INTERVAL", .mul (.intLit 30) (.intLit 1000)⟩,
    ⟨constULong, "MQTT_RETRY_INTERVAL", .mul (.intLit 10) (.intLit 1000)⟩,
    ⟨constULong, "SENSOR_TIMEOUT", .mul (.intLit 60) (.intLit 1000)⟩,
    ⟨constInt, "MAX_SENSOR_ERROR_COUNT", .intLit 10⟩,
    ⟨constULong, "MIN_FREE_HEAP", .intLit 10000⟩ ]

/-! ## Editing the header -/

/-- The initialiser a table gives to `name`. -/
def initOf (name : String) : List Decl → Option Expr
  | [] => none
  | d :: ds => if d.name = name then some d.init else initOf name ds

/-- Replace the initialiser of the declaration called `name`. -/
def setInit (name : String) (e : Expr) : List Decl → List Decl
  | [] => []
  | d :: ds =>
    (if d.name = name then ⟨d.ty, d.name, e⟩ else d) :: setInit name e ds

/-- Whether an expression names the constant `x`. -/
def mentions (x : String) : Expr → Bool
  | .ident y => decide (y = x)
  | .mul a b => mentions x a || mentions x b
  | .neg a => mentions x a
  | _ => false

/-- Largest value of an `int` that is `bits` wide. -/
def intMax (bits : Nat) : Int := 2 ^ (bits - 1) - 1

/-- Smallest value of an `int` that is `bits` wide. -/
def intMin (bits : Nat) : Int := -(2 ^ (bits - 1))

/-- Number of values of `unsigned long` (32 bits). -/
def ulongModulus : Nat := 2 ^ 32

/-- Largest value of `unsigned long`. -/
def ulongMax : Nat := ulongModulus - 1

/-- Whether a mathematical integer is representable as `int`. -/
def fitsInt (bits : Nat) (i : Int) : Bool :=
  decide (intMin bits ≤ i) && decide (i ≤ intMax bits)

/-- Conversion of an integer to `unsigned long`: reduction modulo `2^32`. -/
def toULong (i : Int) : Nat := (i % (ulongModulus : Int)).toNat

/-- Conversion of an `unsigned long` to `int`: the value when it fits,
otherwise the value reduced modulo `2^bits` into the signed range. -/
def ulongToInt (bits : Nat) (n : Nat) : Int :=
  let r : Int := (n : Int) % 2 ^ bits
  if r ≤ intMax bits then r else r - 2 ^ bits

/-! ## Evaluation of initialisers -/

/-- Look a constant up by name. -/
def readField (name : String) : Env → Option Value
  | [] => none
  | (n, v) :: rest => if n = name then some v else readField name rest

/-- Integral promotion: `bool` becomes `int` (`false` is 0, `true` is 1). -/
def promote : Value → Value
  | .bool b => .int (if b then 1 else 0)
  | v => v

/-- The operator `*` on promoted operands.  `int * int` is computed in `int`
and has no value when the product is not representable (signed overflow);
when either operand is `unsigned long` the other is converted to it and the
product is taken modulo `2^32`.  Strings have no product. -/
def mulValues (bits : Nat) (x y : Value) : Option Value :=
  match promote x, promote y with
  | .int a, .int b => if fitsInt bits (a * b) then some (.int (a * b)) else none
  | .int a, .ulong b => some (.ulong ((toULong a * b) % ulongModulus))
  | .ulong a, .int b => some (.ulong ((a * toULong b) % ulongModulus))
  | .ulong a, .ulong b => some (.ulong ((a * b) % ulongModulus))
  | _, _ => none

/-- The operator unary `-` on the promoted operand.  On `int` it has no value
when the result is not representable; on `unsigned long` it is taken modulo
`2^32`. -/
def negValue (bits : Nat) (x : Value) : Option Value :=
  match promote x with
  | .int a => if fitsInt bits (-a) then some (.int (-a)) else none
  | .ulong a => some (.ulong (toULong (-(a : Int))))
  | _ => none

/-- Value of an initialiser expression.  An unsuffixed literal has type `int`
when it fits (a larger one would have a wider type, which the header does not
use: no value here), a `UL` literal has type `unsigned long` when it fits. -/
def evalExpr (bits : Nat) (env : Env) : Expr → Option Value
  | .intLit n => if (n : Int) ≤ intMax bits then some (.int n) else none
  | .ulLit n => if n ≤ ulongMax then some (.ulong n) else none
  | .boolLit b => some (.bool b)
  | .strLit s => some (.str s)
  | .ident x => readField x env
  | .mul a b =>
    match evalExpr bits env a, evalExpr bits env b with
    | some x, some y => mulValues bits x y
    | _, _ => none
  | .neg a =>
    match evalExpr bits env a with
    | some x => negValue bits x
    | none => none

/-- Conversion of the initialiser value to the declared type. -/
def convert (bits : Nat) : CType → Value → Option Value
  | .obj _ .int, .int i => some (.int i)
  | .obj _ .int, .ulong n => some (.int (ulongToInt bits n))
  | .obj _ .int, .bool b => some (.int (if b then 1 else 0))
  | .obj _ .unsignedLong, .int i => some (.ulong (toULong i))
  | .obj _ .unsignedLong, .ulong n => some (.ulong n)
  | .obj _ .unsignedLong, .bool b => some (.ulong (if b then 1 else 0))
  | .obj _ .bool, .int i => some (.bool (decide (i ≠ 0)))
  | .obj _ .bool, .ulong n => some (.bool (decide (n ≠ 0)))
  | .obj _ .bool, .bool b => some (.bool b)
  | .ptr _ (.obj true .char), .str s => some (.str s)
  | _, _ => none

/-- The value a declaration gives its constant. -/
def initialise (bits : Nat) (env : Env) (d : Decl) : Option Value :=
  match evalExpr bits env d.init with
  | some v => convert bits d.ty v
  | none => none

/-- Process the declarations in order, extending the constants defined so
far.  No result when an initialiser has no value or the wrong type. -/
def elaborate (bits : Nat) : List Decl → Env → Option Env
  | [], env => some env
  | d :: ds, env =>
    match initialise bits env d with
    | some v => elaborate bits ds (env ++ [(d.name, v)])
    | none => none

/-- What the consuming program reads for the constant `name` after including
the header `table`. -/
def readConst (bits : Nat) (table : List Decl) (name : String) : Option Value :=
  match elaborate bits table [] with
  | some env => readField name env
  | none => none

/-- The value a single declaration of the table gives its constant, evaluated
on its own (for initialisers that name no other constant). -/
def initValue (bits : Nat) (table : List Decl) (name : String) : Option Value :=
  match table.find? (fun d => decide (d.name = name)) with
  | some d => initialise bits [] d
  | none => none

/-- The integer a numeric constant holds. -/
def Value.toInt : Value → Option Int
  | .int i => some i
  | .ulong n => some (n : Int)
  | _ => none

/-- The integer the consuming program reads for a numeric constant. -/
def readInt (bits : Nat) (table : List Decl) (name : String) : Option Int :=
  match readConst bits table name with
  | some v => v.toInt
  | none => none

/-! ## Exact arithmetic, for comparison -/

/-- Type and exact mathematical value of an integer expression built from
literals and `*`: the type follows the usual arithmetic conversions, the value
is computed in the integers without any reduction. -/
def exactValue (bits : Nat) : Expr → Option (CBase × Int)
  | .intLit n => if (n : Int) ≤ intMax bits then some (.int, n) else none
  | .ulLit n => if n ≤ ulongMax then some (.unsignedLong, n) else none
  | .mul a b =>
    match exactValue bits a, exactValue bits b with
    | some (.int, x), some (.int, y) => some (.int, x * y)
    | some (_, x), some (_, y) => some (.unsignedLong, x * y)
    | _, _ => none
  | _ => none

/-- Largest value of an integer type. -/
def typeMax (bits : Nat) : CBase → Int
  | .int => intMax bits
  | .unsignedLong => ulongMax
  | .bool => 1
  | .char => 127

/-- An expression and all its subexpressions, operands first. -/
def subterms : Expr → List Expr
  | .mul a b => subterms a ++ subterms b ++ [.mul a b]
  | .neg a => subterms a ++ [.neg a]
  | e => [e]

/-- Whether every subexpression has an exact value no larger than the largest
value of its type. -/
def noOverflow (bits : Nat) (e : Expr) : Bool :=
  (subterms e).all fun s =>
    match exactValue bits s with
    | some (t, v) => decide (v ≤ typeMax bits t)
    | none => false

/-- The exact value of the initialiser of `name`, when it is a product of
integer literals. -/
def exactInit (bits : Nat) (table : List Decl) (name : String) : Option Int :=
  match initOf name table with
  | some e => (exactValue bits e).map Prod.snd
  | none => none

/-- Whether the initialiser of `name` evaluates without exceeding a type. -/
def initNoOverflow (bits : Nat) (table : List Decl) (name : String) : Bool :=
  match initOf name table with
  | some e => noOverflow bits e
  | none => false

/-! ## Settings as written -/

/-- The five string constants. -/
def stringFields : List String :=
  ["ssid", "password", "mqtt_server", "mqtt_client_id", "mqtt_topic"]

/-- The consuming program reads a non-negative integer for `name` (32-bit
`int`). -/
def NonNegative (name : String) : Prop :=
  ∃ i : Int, readInt 32 CONFIG_H name = some i ∧ 0 ≤ i

/-- The consuming program reads a string of length at least 1 for `name`. -/
def NonEmptyString (name : String) : Prop :=
  ∃ s : String, readConst 32 CONFIG_H name = some (.str s) ∧ 1 ≤ s.length

/-- With `int` of the given width, the initialiser of `name` exceeds no type
at any step and the constant holds the exact mathematical product. -/
def ExactOn (bits : Nat) (name : String) : Prop :=
  initNoOverflow bits CONFIG_H name = true ∧
  (exactInit bits CONFIG_H name).isSome = true ∧
  (initValue bits CONFIG_H name).bind Value.toInt = exactInit bits CONFIG_H name

/-- With `int` of the given width, some step of the initialiser of `name`
exceeds its type and the initialiser has no value. -/
def OverflowsOn (bits : Nat) (name : String) : Prop :=
  initNoOverflow bits CONFIG_H name = false ∧ initValue bits CONFIG_H name = none

instance (bits : Nat) (name : String) : Decidable (ExactOn bits name) := by
  unfold ExactOn; infer_instance

instance (bits : Nat) (name : String) : Decidable (OverflowsOn bits name) := by
  unfold OverflowsOn; infer_instance

/-- The constants the header defines with a 32-bit `int`, in source order. -/
def headerEnv : Env :=
  [ ("ssid", .str "YOUR_WIFI_SSID"),
    ("password", .str "YOUR_WIFI_PASSWORD"),
    ("mqtt_server", .str "192.168.1.100"),
    ("mqtt_port", .int 1883),
    ("mqtt_client_id", .str "M5StickC_CO2_Monitor"),
    ("mqtt_topic", .str "m5stickc_co2/co2_data"),
    ("AUTO_RESTART_INTERVAL", .ulong 86400000),
    ("ENABLE_AUTO_RESTART", .bool true),
    ("WATCHDOG_TIMEOUT", .ulong 30000),
    ("ENABLE_WATCHDOG", .bool true),
    ("MAX_WIFI_RETRY", .int 3),
    ("MAX_MQTT_RETRY", .int 5),
    ("WIFI_RETRY_INTERVAL", .ulong 30000),
    ("MQTT_RETRY_INTERVAL", .ulong 10000),
    ("SENSOR_TIMEOUT", .ulong 60000),
    ("MAX_SENSOR_ERROR_COUNT", .int 10),
    ("MIN_FREE_HEAP", .ulong 10000) ]

/-! ## Auxiliary lemmas -/

/-- Elaborating the header on the target gives `headerEnv`. -/
theorem elaborate_CONFIG_H : elaborate 32 CONFIG_H [] = some headerEnv := by
  rfl

/-- Elaborating the header with the auto-restart toggle set to `b` gives
`headerEnv` with that one entry replaced. -/
theorem elaborate_setToggle (b : Bool) :
    elaborate 32 (setInit "ENABLE_AUTO_RESTART" (.boolLit b) CONFIG_H) [] =
      some (headerEnv.map fun p =>
        if p.1 = "ENABLE_AUTO_RESTART" then (p.1, Value.bool b) else p) := by
  cases b <;> rfl

/-- C1: the header declares `mqtt_port` as a `const int` initialised with the
literal 1883, the consuming program reads 1883 for it, and that value lies in
the TCP port range 1..65535. -/
theorem mqtt_port_in_tcp_range :
    CONFIG_H.find? (fun d => decide (d.name = "mqtt_port")) =
        some ⟨.obj true .int, "mqtt_port", .intLit 1883⟩ ∧
      ∃ p : Int, readInt 32 CONFIG_H "mqtt_port" = some p ∧
        p = 1883 ∧ 1 ≤ p ∧ p ≤ 65535 :=
  ⟨by rfl, 1883, by rfl, rfl, by decide, by decide⟩

/-- C2: every numeric constant of the table is read as a non-negative integer:
the four `int` constants and the six `unsigned long` constants. -/
theorem numeric_fields_nonnegative :
    NonNegative "mqtt_port" ∧ NonNegative "MAX_WIFI_RETRY" ∧
      NonNegative "MAX_MQTT_RETRY" ∧ NonNegative "MAX_SENSOR_ERROR_COUNT" ∧
      NonNegative "AUTO_RESTART_INTERVAL" ∧ NonNegative "WATCHDOG_TIMEOUT" ∧
      NonNegative "WIFI_RETRY_INTERVAL" ∧ NonNegative "MQTT_RETRY_INTERVAL" ∧
      NonNegative "SENSOR_TIMEOUT" ∧ NonNegative "MIN_FREE_HEAP" :=
  ⟨⟨1883, by rfl, by decide⟩, ⟨3, by rfl, by decide⟩, ⟨5, by rfl, by decide⟩,
    ⟨10, by rfl, by decide⟩, ⟨86400000, by rfl, by decide⟩,
    ⟨30000, by rfl, by decide⟩, ⟨30000, by rfl, by decide⟩,
    ⟨10000, by rfl, by decide⟩, ⟨60000, by rfl, by decide⟩,
    ⟨10000, by rfl, by decide⟩⟩

/-- C3: each of the five string constants (ssid, password, mqtt_server,
mqtt_client_id, mqtt_topic) is read as a string of length at least 1. -/
theorem string_fields_nonempty :
    NonEmptyString "ssid" ∧ NonEmptyString "password" ∧
      NonEmptyString "mqtt_server" ∧ NonEmptyString "mqtt_client_id" ∧
      NonEmptyString "mqtt_topic" :=
  ⟨⟨"YOUR_WIFI_SSID", by rfl, by decide⟩,
    ⟨"YOUR_WIFI_PASSWORD", by rfl, by decide⟩,
    ⟨"192.168.1.100", by rfl, by decide⟩,
    ⟨"M5StickC_CO2_Monitor", by rfl, by decide⟩,
    ⟨"m5stickc_co2/co2_data", by rfl, by decide⟩⟩

/-! ## Const qualification -/

/-- C4, as stated, fails: not every declaration of the table is of a const
object.  `ssid` is declared `const char *ssid`, whose `const` qualifies the
characters pointed to; the pointer object itself is not const-qualified, so
the consuming program can assign to it. -/
theorem ssid_pointer_not_const :
    (¬ ∀ d ∈ CONFIG_H, d.ty.isConstObject = true) ∧
      ∃ d ∈ CONFIG_H, d.name = "ssid" ∧ d.ty = .ptr false (.obj true .char) ∧
        d.ty.isConstObject = false := by
  decide

/-- C4, amended: every declaration of a numeric or boolean constant is of a
const object; each of the five string constants is declared `const char *`, a
pointer that is not itself const-qualified to const-qualified characters. -/
theorem const_qualification (d : Decl) (h : d ∈ CONFIG_H) :
    (d.name ∉ stringFields → d.ty.isPointer = false ∧ d.ty.isConstObject = true) ∧
      (d.name ∈ stringFields →
        d.ty = .ptr false (.obj true .char) ∧ d.ty.pointsToConst = true ∧
          d.ty.isConstObject = false) := by
  revert d
  decide

/-- Witness of `const_qualification` at the declaration of `ssid`. -/
theorem const_qualification_witness :
    (⟨constCharPtr, "ssid", .strLit "YOUR_WIFI_SSID"⟩ : Decl) ∈ CONFIG_H ∧
      constCharPtr.pointsToConst = true ∧ constCharPtr.isConstObject = false :=
  ⟨by decide,
    ((const_qualification ⟨constCharPtr, "ssid", .strLit "YOUR_WIFI_SSID"⟩
      (by decide)).2 (by decide)).2⟩

/-! ## No validation -/

/-- C6: with the initialiser of `ENABLE_AUTO_RESTART` set to `b`, the consuming
program reads `b` for it (the header as written gives `true`, so `false` is a
change), it reads for every other name what it reads from the header as
written, and no initialiser of the header names `ENABLE_AUTO_RESTART`. -/
theorem toggle_auto_restart_frame (b : Bool) (name : String)
    (h : name ≠ "ENABLE_AUTO_RESTART") :
    readConst 32 CONFIG_H "ENABLE_AUTO_RESTART" = some (.bool true) ∧
      readConst 32 (setInit "ENABLE_AUTO_RESTART" (.boolLit b) CONFIG_H)
        "ENABLE_AUTO_RESTART" = some (.bool b) ∧
      readConst 32 (setInit "ENABLE_AUTO_RESTART" (.boolLit b) CONFIG_H) name =
        readConst 32 CONFIG_H name ∧
      (∀ d ∈ CONFIG_H, mentions "ENABLE_AUTO_RESTART" d.init = false) := by
  have h1 : ¬ "ENABLE_AUTO_RESTART" = name := fun e => h e.symm
  have e1 := elaborate_setToggle b
  refine ⟨by rfl, ?_, ?_, by decide⟩
  · simp only [readConst, e1]
    simp [headerEnv, readField]
  · simp only [readConst, elaborate_CONFIG_H, e1]
    simp [headerEnv, readField, h1]

/-- Witness of `toggle_auto_restart_frame`: switching the toggle off leaves
`ENABLE_WATCHDOG` as it was. -/
theorem toggle_auto_restart_frame_witness :
    "ENABLE_WATCHDOG" ≠ "ENABLE_AUTO_RESTART" ∧
      readConst 32 (setInit "ENABLE_AUTO_RESTART" (.boolLit false) CONFIG_H)
        "ENABLE_AUTO_RESTART" = some (.bool false) ∧
      readConst 32 (setInit "ENABLE_AUTO_RESTART" (.boolLit false) CONFIG_H)
        "ENABLE_WATCHDOG" = readConst 32 CONFIG_H "ENABLE_WATCHDOG" :=
  ⟨by decide,
    (toggle_auto_restart_frame false "ENABLE_WATCHDOG" (by decide)).2.1,
    (toggle_auto_restart_frame false "ENABLE_WATCHDOG" (by decide)).2.2.1⟩

/-! ## Durations -/

/-- C7: the initialiser of `AUTO_RESTART_INTERVAL` is `24 * 60 * 60 * 1000UL`;
with a 32-bit `int` the products `24 * 60` and `24 * 60 * 60` are the `int`
values 1440 and 86400, the last product is the `unsigned long` 86400000, no
step exceeds its type, the value is the exact product, and it is the number of
milliseconds in 24 hours. -/
theorem auto_restart_interval_is_24_hours :
    initOf "AUTO_RESTART_INTERVAL" CONFIG_H =
        some (.mul (.mul (.mul (.intLit 24) (.intLit 60)) (.intLit 60)) (.ulLit 1000)) ∧
      evalExpr 32 [] (.mul (.intLit 24) (.intLit 60)) = some (.int 1440) ∧
      evalExpr 32 [] (.mul (.mul (.intLit 24) (.intLit 60)) (.intLit 60)) =
        some (.int 86400) ∧
      evalExpr 32 []
          (.mul (.mul (.mul (.intLit 24) (.intLit 60)) (.intLit 60)) (.ulLit 1000)) =
        some (.ulong 86400000) ∧
      readConst 32 CONFIG_H "AUTO_RESTART_INTERVAL" = some (.ulong 86400000) ∧
      initNoOverflow 32 CONFIG_H "AUTO_RESTART_INTERVAL" = true ∧
      exactInit 32 CONFIG_H "AUTO_RESTART_INTERVAL" = some 86400000 ∧
      (86400000 : Nat) < ulongModulus ∧
      (86400000 : Nat) = 24 * 60 * 60 * 1000 := by
  decide

/-- C8: `WATCHDOG_TIMEOUT` is 30000 ms, the 30 seconds of its comment, and
`SENSOR_TIMEOUT` is 60000 ms, the 1 minute of its comment. -/
theorem timeouts_match_comments :
    readConst 32 CONFIG_H "WATCHDOG_TIMEOUT" = some (.ulong 30000) ∧
      (30000 : Nat) = 30 * 1000 ∧
      readConst 32 CONFIG_H "SENSOR_TIMEOUT" = some (.ulong 60000) ∧
      (60000 : Nat) = 1 * 60 * 1000 := by
  decide

/-- C9, as stated, fails: with a 16-bit `int`, `SENSOR_TIMEOUT` is not the only
product that exceeds 32767.  The step `24 * 60 * 60` of
`AUTO_RESTART_INTERVAL` is computed in `int`, its exact value is 86400, and the
initialiser has no value. -/
theorem auto_restart_interval_overflows_int16 :
    "AUTO_RESTART_INTERVAL" ≠ "SENSOR_TIMEOUT" ∧
      ¬ ExactOn 16 "AUTO_RESTART_INTERVAL" ∧
      exactValue 16 (.mul (.mul (.intLit 24) (.intLit 60)) (.intLit 60)) =
        some (.int, 86400) ∧
      intMax 16 = 32767 ∧
      evalExpr 16 [] (.mul (.mul (.intLit 24) (.intLit 60)) (.intLit 60)) = none ∧
      initValue 16 CONFIG_H "AUTO_RESTART_INTERVAL" = none := by
  decide

/-- C9, amended: with a 32-bit `int` each of the five product initialisers
exceeds no type at any step and the constant equals the exact product, which is
also what the consuming program reads.  With a 16-bit `int` the same holds for
`WATCHDOG_TIMEOUT`, `WIFI_RETRY_INTERVAL` and `MQTT_RETRY_INTERVAL`, while
`SENSOR_TIMEOUT` (60 * 1000 = 60000) and `AUTO_RESTART_INTERVAL`
(24 * 60 * 60 = 86400) both exceed 32767 in `int`. -/
theorem product_initialisers_exact :
    (ExactOn 32 "AUTO_RESTART_INTERVAL" ∧ ExactOn 32 "WATCHDOG_TIMEOUT" ∧
        ExactOn 32 "WIFI_RETRY_INTERVAL" ∧ ExactOn 32 "MQTT_RETRY_INTERVAL" ∧
        ExactOn 32 "SENSOR_TIMEOUT") ∧
      (readInt 32 CONFIG_H "AUTO_RESTART_INTERVAL" = some (24 * 60 * 60 * 1000) ∧
        readInt 32 CONFIG_H "WATCHDOG_TIMEOUT" = some (30 * 1000) ∧
        readInt 32 CONFIG_H "WIFI_RETRY_INTERVAL" = some (30 * 1000) ∧
        readInt 32 CONFIG_H "MQTT_RETRY_INTERVAL" = some (10 * 1000) ∧
        readInt 32 CONFIG_H "SENSOR_TIMEOUT" = some (60 * 1000)) ∧
      (ExactOn 16 "WATCHDOG_TIMEOUT" ∧ ExactOn 16 "WIFI_RETRY_INTERVAL" ∧
        ExactOn 16 "MQTT_RETRY_INTERVAL") ∧
      (OverflowsOn 16 "SENSOR_TIMEOUT" ∧
        exactValue 16 (.mul (.intLit 60) (.intLit 1000)) = some (.int, 60000)) ∧
      (OverflowsOn 16 "AUTO_RESTART_INTERVAL" ∧
        exactValue 16 (.mul (.mul (.intLit 24) (.intLit 60)) (.intLit 60)) =
          some (.int, 86400)) ∧
      intMax 16 = 32767 ∧ intMax 32 = 2147483647 := by
  decide

/-- C10: the timing constants are ordered
`MQTT_RETRY_INTERVAL < WIFI_RETRY_INTERVAL <= WATCHDOG_TIMEOUT <
SENSOR_TIMEOUT < AUTO_RESTART_INTERVAL`, and `WIFI_RETRY_INTERVAL` equals
`WATCHDOG_TIMEOUT`. -/
theorem timing_constants_ordered :
    ∃ m w d s a : Int,
      readInt 32 CONFIG_H "MQTT_RETRY_INTERVAL" = some m ∧
      readInt 32 CONFIG_H "WIFI_RETRY_INTERVAL" = some w ∧
      readInt 32 CONFIG_H "WATCHDOG_TIMEOUT" = some d ∧
      readInt 32 CONFIG_H "SENSOR_TIMEOUT" = some s ∧
      readInt 32 CONFIG_H "AUTO_RESTART_INTERVAL" = some a ∧
      m < w ∧ w ≤ d ∧ w = d ∧ d < s ∧ s < a :=
  ⟨10000, 30000, 30000, 60000, 86400000, by rfl, by rfl, by rfl, by rfl, by rfl,
    by decide, by decide, rfl, by decide, by decide⟩

end ConfigH
